import Mathlib

/-!
Verification of the recursive value-resolution algorithm of
`generator/value-resolvers.go` (go-wasm-lib).

The Go functions build `go/ast` trees.  We shallowly embed the fragment of
`go/ast` that the generator reads and constructs, and translate each resolver
(`ResolveValue`, `resolveIdent`, `resolvePointer`, `resolveArray`,
`resolveStruct`, `resolveFuncArgs`) into a Lean function over that embedding.

The resolvers form an open recursion: each composite resolver takes the
recursive entry point as an explicit `recur` argument, and `ResolveValue` ties
the knot.  `ResolveValue` carries a fuel parameter because the alias branch of
`resolveIdent` recurses through the alias table, which is not structurally
decreasing (a self-referential alias table would make the Go code loop
forever); running out of fuel is reported by a distinguished result.
-/

namespace WasmGen

/-- Binary operator tokens (from `go/token`) used by the generator:
`token.NEQ`, `token.LOR`, `token.LSS`. -/
inductive BinOp where
  | neq
  | lor
  | lss
deriving DecidableEq, Repr

/-- Assignment tokens used by the generator: `token.ASSIGN` and `token.DEFINE`. -/
inductive AssignTok where
  | assign
  | define
deriving DecidableEq, Repr

/-- Shallow embedding of the `go/ast` expression nodes that the generator reads
(type shapes: `Ident`, `StarExpr`, `ArrayType`, `StructType`) and builds
(`CallExpr`, `SelectorExpr`, `IndexExpr`, `BinaryExpr`, `BasicLit`,
`CompositeLit`).  A struct field (`ast.Field`) is a list of names plus a type.
`selector x s` is `x.s`; an `arrayType` with `len = none` is a slice type. -/
inductive Expr where
  | ident (name : String)
  | basicLit (kind : String) (value : String)
  | selector (x : Expr) (sel : String)
  | call (fn : Expr) (args : List Expr)
  | index (x : Expr) (idx : Expr)
  | binary (x : Expr) (op : BinOp) (y : Expr)
  | star (x : Expr)
  | arrayType (len : Option Expr) (elt : Expr)
  | structType (fields : List (List String × Expr))
  | compositeLit (ty : Expr)
deriving Repr

/-- Shallow embedding of the `go/ast` statement nodes the generator builds.
`varDecl ns t` is `ast.DeclStmt` holding `var ns t`; `ifStmt ini c b` is an
`ast.IfStmt` with init statement, condition and body; `forStmt ini c post b`
is an `ast.ForStmt`; `incDec x` is `x++` (`token.INC`). -/
inductive Stmt where
  | assign (lhs : List Expr) (tok : AssignTok) (rhs : List Expr)
  | varDecl (names : List String) (ty : Expr)
  | ifStmt (ini : Stmt) (cond : Expr) (body : List Stmt)
  | forStmt (ini : Stmt) (cond : Expr) (post : Stmt) (body : List Stmt)
  | incDec (x : Expr)
deriving Repr

/-- The errors the resolvers produce.  The Go code builds them with
`fmt.Errorf`; each constructor records exactly the data interpolated into the
corresponding format string, so wrapping structure is preserved:
`notFound` is the alias-table lookup failure, `unresolvedIdentifier` is
"Unresolved identifier: %v", `pointerElt` is
"Unresolved pointer element type %v: %v", `arrayElt` is
"Unresolved array element type %v: %v", `structField` is
"Unresolved struct field type %v: %v", and `argument` is
"Unresolved argument \"%s\" type %v: %v". -/
inductive Err where
  | notFound (name : String)
  | unresolvedIdentifier (e : Err)
  | pointerElt (ty : Expr) (e : Err)
  | arrayElt (ty : Expr) (e : Err)
  | structField (ty : Expr) (e : Err)
  | argument (name : String) (ty : Expr) (e : Err)
deriving Repr

/-- Result of one resolver call.  The Go resolvers return the triple
`(ast.Expr, []ast.Stmt, error)`, modelled by `ret` (a `nil` expression is
`none`, a `nil` statement slice is `[]`, a `nil` error is `none`).
`panicked ty` models a Go `panic` raised on an unrecognized native type `ty`
escaping the call, and `outOfFuel` models non-termination of the alias
recursion, cut off by the explicit fuel parameter of `ResolveValue`. -/
inductive RRes where
  | ret (expr : Option Expr) (resolver : List Stmt) (err : Option Err)
  | panicked (ty : Expr)
  | outOfFuel
deriving Repr

/-- Modelled from the spec: the generator state, reduced to the one external
service the resolvers consume.  The method `getTypeAlias` is not part of the
resolver source file; per the spec the alias table is an external mapping
`lookup(name) -> TypeShape` that "fails with NotFound" when the name is
absent, is populated before resolution begins, and is never mutated by the
resolver.  We model it as a pure lookup function. -/
structure Generator where
  typeAliases : String → Option Expr

/-- Modelled from the spec: `lookup(name) -> TypeShape, fails with NotFound`. -/
def Generator.getTypeAlias (gen : Generator) (name : String) : Except Err Expr :=
  match gen.typeAliases name with
  | some ty => .ok ty
  | none => .error (.notFound name)

/-- The scalar switch of `resolveIdent`: for a built-in scalar type name it
yields the accessor method and the cast target (`""` for no cast, mirroring
the empty `typeCast` string in the Go code); `none` sends the name to the
alias table. -/
def identSpec (typeStr : String) : Option (String × String) :=
  match typeStr with
  | "bool" => some ("Bool", "")
  | "string" => some ("String", "")
  | "int" | "int8" | "int16" | "int32" | "rune" | "int64"
  | "uint" | "uint8" | "byte" | "uint16" | "uint32" | "uint64" | "uintptr" =>
    some ("Int", if typeStr = "int" then "" else typeStr)
  | "float32" | "float64" =>
    some ("Float", if typeStr = "float64" then "" else typeStr)
  | _ => none

/-- The names of the integer-family cases of the switch in `resolveIdent`. -/
def intTypeNames : List String :=
  ["int", "int8", "int16", "int32", "rune", "int64",
   "uint", "uint8", "byte", "uint16", "uint32", "uint64", "uintptr"]

/-- The names of the floating-point cases of the switch in `resolveIdent`. -/
def floatTypeNames : List String :=
  ["float32", "float64"]

/-- The expression the scalar branch of `resolveIdent` computes: the accessor
call `jsValue.method()`, wrapped in the cast call `typeCast(...)` unless
`typeCast` is empty. -/
def identExpr (jsValue : Expr) (method typeCast : String) : Expr :=
  let expr0 : Expr := .call (.selector jsValue method) []
  if typeCast = "" then expr0 else .call (.ident typeCast) [expr0]

/-- `resolveIdent` from `value-resolvers.go`.  `recur` is `gen.ResolveValue`
(the open recursion knot); `typeStr` is `nativeType.String()` for the
`*ast.Ident` argument.  On an alias, the Go code recurses with a fresh
`&ast.Ident{Name: typeStr}` as `name`, hence `recur typeStr ...`. -/
def resolveIdent (gen : Generator)
    (recur : String → Expr → Expr → Option Expr → RRes)
    (name : String) (jsValue : Expr) (typeStr : String) (dst : Option Expr) :
    RRes :=
  match identSpec typeStr with
  | none =>
    match gen.getTypeAlias typeStr with
    | .error e => .ret none [] (some (.unresolvedIdentifier e))
    | .ok nativeType => recur typeStr jsValue nativeType dst
  | some (method, typeCast) =>
    let expr0 : Expr := .call (.selector jsValue method) []
    let expr1 : Expr :=
      if typeCast = "" then expr0 else .call (.ident typeCast) [expr0]
    match dst with
    | some d => .ret (some d) [.assign [d] .assign [expr1]] none
    | none => .ret (some expr1) [] none

/-- `resolvePointer` from `value-resolvers.go`.  `pointee` is `nativeType.X`
of the `*ast.StarExpr`.  When no destination is supplied the function sets
`dst = name` and emits `var name *pointee`; it then resolves the pointee
against `dst`, and on success wraps the element resolver in the
`if jsType := jsValue.Type(); jsType != js.TypeUndefined || jsType != js.TypeNull`
guard. -/
def resolvePointer
    (recur : String → Expr → Expr → Option Expr → RRes)
    (name : String) (jsValue : Expr) (pointee : Expr) (dst : Option Expr) :
    RRes :=
  let dstV : Expr :=
    match dst with
    | none => .ident name
    | some d => d
  let decls : List Stmt :=
    match dst with
    | none => [.varDecl [name] (.star pointee)]
    | some _ => []
  match recur (name ++ "Elt") jsValue pointee (some dstV) with
  | .panicked t => .panicked t
  | .outOfFuel => .outOfFuel
  | .ret _ eltResolver errOpt =>
    match errOpt with
    | some e => .ret none [] (some (.pointerElt pointee e))
    | none =>
      .ret (some dstV)
        (decls ++
          [.ifStmt
            (.assign [Expr.ident "jsType"] .define
              [.call (.selector jsValue "Type") []])
            (.binary
              (.binary (.ident "jsType") .neq
                (.selector (.ident "js") "TypeUndefined"))
              .lor
              (.binary (.ident "jsType") .neq
                (.selector (.ident "js") "TypeNull")))
            eltResolver])
        none

/-- `resolveArray` from `value-resolvers.go`.  `tyLen` is `nativeType.Len`
(`none` for a slice) and `elt` is `nativeType.Elt`.  For a slice the length is
queried at runtime into `nameLen`; with no destination, a slice destination is
made with `make(nativeType, lenExpr)` and an array destination with
`var name nativeType`; the element is resolved at `jsValue.Index(nameIdx)`
into `dst[nameIdx]`, and on success a counted loop is appended last. -/
def resolveArray
    (recur : String → Expr → Expr → Option Expr → RRes)
    (name : String) (jsValue : Expr) (tyLen : Option Expr) (elt : Expr)
    (dst : Option Expr) : RRes :=
  let lenExpr : Expr :=
    match tyLen with
    | none => .ident (name ++ "Len")
    | some l => l
  let lenStmts : List Stmt :=
    match tyLen with
    | none =>
      [.assign [Expr.ident (name ++ "Len")] .define
        [.call (.selector jsValue "Length") []]]
    | some _ => []
  let dstV : Expr :=
    match dst with
    | none => .ident name
    | some d => d
  let allocStmts : List Stmt :=
    match dst with
    | some _ => []
    | none =>
      match tyLen with
      | none =>
        [.assign [Expr.ident name] .define
          [.call (.ident "make") [.arrayType tyLen elt, lenExpr]]]
      | some _ => [.varDecl [name] (.arrayType tyLen elt)]
  let idxIdent : Expr := .ident (name ++ "Idx")
  match recur (name ++ "Elt")
      (.call (.selector jsValue "Index") [idxIdent]) elt
      (some (.index dstV idxIdent)) with
  | .panicked t => .panicked t
  | .outOfFuel => .outOfFuel
  | .ret _ eltResolver errOpt =>
    match errOpt with
    | some e => .ret none [] (some (.arrayElt elt e))
    | none =>
      .ret (some dstV)
        (lenStmts ++ allocStmts ++
          [.forStmt
            (.assign [idxIdent] .define [.basicLit "INT" "0"])
            (.binary idxIdent .lss lenExpr)
            (.incDec idxIdent)
            eltResolver])
        none

/-- The inner loop of `resolveStruct` (`for _, fieldName := range field.Names`):
resolves one field type once per field name, reading `jsValue.Get(fieldName)`
into `dstV.fieldName`, wrapping a child error as
"Unresolved struct field type %v: %v" and returning early on it. -/
def resolveStructFieldNames
    (recur : String → Expr → Expr → Option Expr → RRes)
    (name : String) (jsValue : Expr) (dstV : Expr) (fieldType : Expr) :
    List String → RRes
  | [] => .ret none [] none
  | fieldName :: rest =>
    match recur (name ++ fieldName)
        (.call (.selector jsValue "Get") [.ident fieldName]) fieldType
        (some (.selector dstV fieldName)) with
    | .panicked t => .panicked t
    | .outOfFuel => .outOfFuel
    | .ret _ fieldResolver errOpt =>
      match errOpt with
      | some e => .ret none [] (some (.structField fieldType e))
      | none =>
        match resolveStructFieldNames recur name jsValue dstV fieldType rest with
        | .ret _ stmts none => .ret none (fieldResolver ++ stmts) none
        | other => other

/-- The outer loop of `resolveStruct` (`for _, field := range
nativeType.Fields.List`): concatenates each field's resolver statements in
declaration order, returning early on the first failure. -/
def resolveStructFieldList
    (recur : String → Expr → Expr → Option Expr → RRes)
    (name : String) (jsValue : Expr) (dstV : Expr) :
    List (List String × Expr) → RRes
  | [] => .ret none [] none
  | (fieldNames, fieldType) :: rest =>
    match resolveStructFieldNames recur name jsValue dstV fieldType fieldNames with
    | .ret _ stmts1 none =>
      match resolveStructFieldList recur name jsValue dstV rest with
      | .ret _ stmts2 none => .ret none (stmts1 ++ stmts2) none
      | other => other
    | other => other

/-- `resolveStruct` from `value-resolvers.go`.  `fields` is
`nativeType.Fields.List`.  With no destination it first emits
`name := nativeType{}` (a `CompositeLit` of the struct type) and uses `name`
as destination, then resolves the fields in declaration order. -/
def resolveStruct
    (recur : String → Expr → Expr → Option Expr → RRes)
    (name : String) (jsValue : Expr)
    (fields : List (List String × Expr)) (dst : Option Expr) : RRes :=
  let dstV : Expr :=
    match dst with
    | none => .ident name
    | some d => d
  let allocStmts : List Stmt :=
    match dst with
    | none =>
      [.assign [Expr.ident name] .define [.compositeLit (.structType fields)]]
    | some _ => []
  match resolveStructFieldList recur name jsValue dstV fields with
  | .panicked t => .panicked t
  | .outOfFuel => .outOfFuel
  | .ret _ stmts errOpt =>
    match errOpt with
    | some e => .ret none [] (some e)
    | none => .ret (some dstV) (allocStmts ++ stmts) none

/-- `ResolveValue` from `value-resolvers.go`: the type-shape dispatcher.  The
four handled `go/ast` variants go to their resolvers; any other native type
hits the `default` branch, `panic(fmt.Errorf("Unrecognized native type : %v",
nativeType))`.  `fuel` bounds the alias recursion (see the file comment). -/
def ResolveValue (gen : Generator) :
    Nat → String → Expr → Expr → Option Expr → RRes
  | 0, _, _, _, _ => .outOfFuel
  | fuel + 1, name, jsValue, nativeType, dst =>
    match nativeType with
    | .ident typeStr =>
      resolveIdent gen (fun n j t d => ResolveValue gen fuel n j t d)
        name jsValue typeStr dst
    | .star pointee =>
      resolvePointer (fun n j t d => ResolveValue gen fuel n j t d)
        name jsValue pointee dst
    | .arrayType tyLen elt =>
      resolveArray (fun n j t d => ResolveValue gen fuel n j t d)
        name jsValue tyLen elt dst
    | .structType fields =>
      resolveStruct (fun n j t d => ResolveValue gen fuel n j t d)
        name jsValue fields dst
    | ty => .panicked ty

/-- Result of `resolveFuncArgs`: the Go function returns
`(args []ast.Expr, resolver []ast.Stmt, err error)`; a slice of expressions
may hold `nil` entries, hence `List (Option Expr)`.  `panicked` and
`outOfFuel` propagate from `ResolveValue` as in `RRes`. -/
inductive ARes where
  | ret (args : List (Option Expr)) (resolver : List Stmt) (err : Option Err)
  | panicked (ty : Expr)
  | outOfFuel
deriving Repr

/-- `ast.FieldList.NumFields` from `go/ast`, used by `resolveFuncArgs` to size
the argument slice: each field counts its number of names, or 1 when it has
none. -/
def numFields (params : List (List String × Expr)) : Nat :=
  params.foldl (fun n f => n + (if f.1.length = 0 then 1 else f.1.length)) 0

/-- The inner loop of `resolveFuncArgs` (`for _, name := range param.Names`):
resolves the parameter at running position `i` from `args[i]` (a literal index
into the incoming-arguments list) with no destination, stores the resulting
expression at slot `i` of `args`, wraps a child error as
"Unresolved argument \"%s\" type %v: %v" and returns early on it, and
concatenates the child resolver statements in order. -/
def resolveFuncArgsNames
    (recur : String → Expr → Expr → Option Expr → RRes)
    (i : Nat) (args : List (Option Expr)) (paramType : Expr) :
    List String → ARes
  | [] => .ret args [] none
  | pname :: rest =>
    match recur pname
        (.index (.ident "args") (.basicLit "INT" (toString i)))
        paramType none with
    | .panicked t => .panicked t
    | .outOfFuel => .outOfFuel
    | .ret argExpr stmts errOpt =>
      match errOpt with
      | some e => .ret [] [] (some (.argument pname paramType e))
      | none =>
        match resolveFuncArgsNames recur (i + 1) (args.set i argExpr)
            paramType rest with
        | .ret argsF stmtsRest none => .ret argsF (stmts ++ stmtsRest) none
        | other => other

/-- The outer loop of `resolveFuncArgs` (`for _, param := range params.List`):
threads the running position `i` and the argument slice through the
parameters in positional order. -/
def resolveFuncArgsParams
    (recur : String → Expr → Expr → Option Expr → RRes)
    (i : Nat) (args : List (Option Expr)) :
    List (List String × Expr) → ARes
  | [] => .ret args [] none
  | (paramNames, paramType) :: rest =>
    match resolveFuncArgsNames recur i args paramType paramNames with
    | .ret args2 stmts1 none =>
      match resolveFuncArgsParams recur (i + paramNames.length) args2 rest with
      | .ret argsF stmts2 none => .ret argsF (stmts1 ++ stmts2) none
      | other => other
    | other => other

/-- `resolveFuncArgs` from `value-resolvers.go`: the argument-list driver.
`params` is `params.List` of the `*ast.FieldList`; the argument slice starts
as `make([]ast.Expr, params.NumFields())` (all `nil`) and the position counter
starts at 0. -/
def resolveFuncArgs (gen : Generator) (fuel : Nat)
    (params : List (List String × Expr)) : ARes :=
  resolveFuncArgsParams (fun n j t d => ResolveValue gen fuel n j t d) 0
    (List.replicate (numFields params) none) params

/-- The `js.Type` constants of `syscall/js` that the emitted pointer guard can
mention, i.e. the possible dynamic kinds of a source value. -/
inductive JsType where
  | undefined
  | null
  | boolean
  | number
  | str
  | symbol
  | object
  | function
deriving DecidableEq, BEq, Repr

/-- A value occurring while evaluating an emitted guard condition: either a
`js.Type` constant or a boolean. -/
inductive GuardVal where
  | ty (t : JsType)
  | b (v : Bool)
deriving DecidableEq, BEq, Repr

/-- Evaluation of an emitted guard condition, to give the emitted `if`
statement its runtime meaning.  `k` is the dynamic kind of the source value,
i.e. the value that the generated `jsType := jsValue.Type()` init statement
binds to `jsType`; `js.TypeUndefined` and `js.TypeNull` evaluate to their
constants; `!=` compares two kinds and `||` is boolean disjunction, as in Go.
Any expression outside this fragment does not evaluate. -/
def evalGuard (k : JsType) : Expr → Option GuardVal
  | .ident "jsType" => some (.ty k)
  | .selector (.ident "js") "TypeUndefined" => some (.ty .undefined)
  | .selector (.ident "js") "TypeNull" => some (.ty .null)
  | .binary x .neq y =>
    match evalGuard k x, evalGuard k y with
    | some (.ty a), some (.ty b) => some (.b (a != b))
    | _, _ => none
  | .binary x .lor y =>
    match evalGuard k x, evalGuard k y with
    | some (.b a), some (.b b) => some (.b (a || b))
    | _, _ => none
  | _ => none

/-- The guard condition `resolvePointer` emits, as constructed in the source:
`jsType != js.TypeUndefined || jsType != js.TypeNull` (note `||`, `token.LOR`).
It does not depend on the source value, which only appears in the guard's init
statement. -/
def ptrGuardCond : Expr :=
  .binary
    (.binary (.ident "jsType") .neq (.selector (.ident "js") "TypeUndefined"))
    .lor
    (.binary (.ident "jsType") .neq (.selector (.ident "js") "TypeNull"))

/-- Is the native type one of the four variants the `ResolveValue` type switch
handles? -/
def handledShape : Expr → Bool
  | .ident _ => true
  | .star _ => true
  | .arrayType _ _ => true
  | .structType _ => true
  | _ => false

/-- A generator with an empty alias table. -/
def emptyGen : Generator := ⟨fun _ => none⟩

/-- A generator whose alias table has the two-step chain
`MyInt ↦ MyInt2 ↦ int32`. -/
def aliasGen : Generator :=
  ⟨fun s =>
    if s = "MyInt" then some (.ident "MyInt2")
    else if s = "MyInt2" then some (.ident "int32")
    else none⟩

/-- `AliasesToI32 gen s n`: in `gen`'s alias table, the non-scalar name `s`
reaches the built-in scalar `int32` through a chain of `n` alias lookups,
every intermediate name being itself non-scalar. -/
inductive AliasesToI32 (gen : Generator) : String → Nat → Prop where
  | base (s : String) (h1 : identSpec s = none)
      (h2 : gen.typeAliases s = some (.ident "int32")) :
      AliasesToI32 gen s 1
  | step (s t : String) (n : Nat) (h1 : identSpec s = none)
      (h2 : gen.typeAliases s = some (.ident t))
      (h3 : AliasesToI32 gen t n) :
      AliasesToI32 gen s (n + 1)

/-! ### Helper lemmas -/

/-- A successful struct inner loop returns no expression (the Go code never
assigns `expr` there). -/
theorem resolveStructFieldNames_ret_expr_none
    {recur : String → Expr → Expr → Option Expr → RRes}
    {name : String} {jsValue dstV fieldType : Expr} :
    ∀ {l : List String} {o : Option Expr} {st : List Stmt} {oe : Option Err},
      resolveStructFieldNames recur name jsValue dstV fieldType l =
        .ret o st oe → o = none := by
  intro l
  induction l with
  | nil => intro o st oe h; injection h with h1; exact h1.symm
  | cons fn rest ih =>
    intro o st oe h
    simp only [resolveStructFieldNames] at h
    split at h
    · exact RRes.noConfusion h
    · exact RRes.noConfusion h
    · split at h
      · injection h with h1; exact h1.symm
      · split at h
        · injection h with h1; exact h1.symm
        · exact ih h

/-- A successful struct outer loop returns no expression. -/
theorem resolveStructFieldList_ret_expr_none
    {recur : String → Expr → Expr → Option Expr → RRes}
    {name : String} {jsValue dstV : Expr} :
    ∀ {l : List (List String × Expr)} {o : Option Expr} {st : List Stmt}
      {oe : Option Err},
      resolveStructFieldList recur name jsValue dstV l = .ret o st oe →
      o = none := by
  intro l
  induction l with
  | nil => intro o st oe h; injection h with h1; exact h1.symm
  | cons f rest ih =>
    intro o st oe h
    obtain ⟨fns, fty⟩ := f
    simp only [resolveStructFieldList] at h
    split at h
    · split at h
      · injection h with h1; exact h1.symm
      · exact ih h
    · exact resolveStructFieldNames_ret_expr_none h

/-- `resolveIdent` only panics through the recursive call: any panic payload it
propagates is an unhandled shape, provided `recur` has that property. -/
theorem resolveIdent_panicked_shape {gen : Generator}
    {recur : String → Expr → Expr → Option Expr → RRes}
    (H : ∀ n j ty d u, recur n j ty d = .panicked u → handledShape u = false)
    {name : String} {jsValue : Expr} {typeStr : String} {dst : Option Expr}
    {t : Expr}
    (h : resolveIdent gen recur name jsValue typeStr dst = .panicked t) :
    handledShape t = false := by
  cases dst <;> unfold resolveIdent at h <;> split at h
  · split at h
    · exact RRes.noConfusion h
    · exact H _ _ _ _ _ h
  · exact RRes.noConfusion h
  · split at h
    · exact RRes.noConfusion h
    · exact H _ _ _ _ _ h
  · exact RRes.noConfusion h

/-- `resolvePointer` only panics through the recursive call. -/
theorem resolvePointer_panicked_shape
    {recur : String → Expr → Expr → Option Expr → RRes}
    (H : ∀ n j ty d u, recur n j ty d = .panicked u → handledShape u = false)
    {name : String} {jsValue pointee : Expr} {dst : Option Expr} {t : Expr}
    (h : resolvePointer recur name jsValue pointee dst = .panicked t) :
    handledShape t = false := by
  cases dst <;> simp only [resolvePointer] at h <;> split at h <;>
    try split at h
  all_goals try exact RRes.noConfusion h
  all_goals rename_i u heq
  all_goals injection h with h1
  all_goals subst h1
  all_goals exact H _ _ _ _ _ heq

/-- `resolveArray` only panics through the recursive call. -/
theorem resolveArray_panicked_shape
    {recur : String → Expr → Expr → Option Expr → RRes}
    (H : ∀ n j ty d u, recur n j ty d = .panicked u → handledShape u = false)
    {name : String} {jsValue : Expr} {tyLen : Option Expr} {elt : Expr}
    {dst : Option Expr} {t : Expr}
    (h : resolveArray recur name jsValue tyLen elt dst = .panicked t) :
    handledShape t = false := by
  cases dst <;> cases tyLen <;> simp only [resolveArray] at h <;> split at h <;>
    try split at h
  all_goals try exact RRes.noConfusion h
  all_goals rename_i u heq
  all_goals injection h with h1
  all_goals subst h1
  all_goals exact H _ _ _ _ _ heq

/-- The struct inner loop only panics through the recursive call. -/
theorem resolveStructFieldNames_panicked_shape
    {recur : String → Expr → Expr → Option Expr → RRes}
    (H : ∀ n j ty d u, recur n j ty d = .panicked u → handledShape u = false)
    {name : String} {jsValue dstV fieldType : Expr} :
    ∀ {l : List String} {t : Expr},
      resolveStructFieldNames recur name jsValue dstV fieldType l =
        .panicked t → handledShape t = false := by
  intro l
  induction l with
  | nil => intro t h; exact RRes.noConfusion h
  | cons fn rest ih =>
    intro t h
    simp only [resolveStructFieldNames] at h
    split at h
    · rename_i u heq
      injection h with h1
      subst h1
      exact H _ _ _ _ _ heq
    · exact RRes.noConfusion h
    · split at h
      · exact RRes.noConfusion h
      · split at h
        · exact RRes.noConfusion h
        · exact ih h

/-- The struct outer loop only panics through the recursive call. -/
theorem resolveStructFieldList_panicked_shape
    {recur : String → Expr → Expr → Option Expr → RRes}
    (H : ∀ n j ty d u, recur n j ty d = .panicked u → handledShape u = false)
    {name : String} {jsValue dstV : Expr} :
    ∀ {l : List (List String × Expr)} {t : Expr},
      resolveStructFieldList recur name jsValue dstV l = .panicked t →
      handledShape t = false := by
  intro l
  induction l with
  | nil => intro t h; exact RRes.noConfusion h
  | cons f rest ih =>
    intro t h
    obtain ⟨fns, fty⟩ := f
    simp only [resolveStructFieldList] at h
    split at h
    · split at h
      · exact RRes.noConfusion h
      · exact ih h
    · exact resolveStructFieldNames_panicked_shape H h

/-- `resolveStruct` only panics through the recursive call. -/
theorem resolveStruct_panicked_shape
    {recur : String → Expr → Expr → Option Expr → RRes}
    (H : ∀ n j ty d u, recur n j ty d = .panicked u → handledShape u = false)
    {name : String} {jsValue : Expr} {fields : List (List String × Expr)}
    {dst : Option Expr} {t : Expr}
    (h : resolveStruct recur name jsValue fields dst = .panicked t) :
    handledShape t = false := by
  cases dst <;> simp only [resolveStruct] at h <;> split at h <;>
    try split at h
  all_goals try exact RRes.noConfusion h
  all_goals try
    (rename_i u heq
     injection h with h1
     subst h1
     exact resolveStructFieldList_panicked_shape H heq)

/-- Any panic escaping `ResolveValue` carries a shape outside the four handled
variants: the `panic` branch of the type switch is the only panic site. -/
theorem ResolveValue_panicked_shape (gen : Generator) :
    ∀ (fuel : Nat) {name : String} {jsValue nativeType : Expr}
      {dst : Option Expr} {t : Expr},
      ResolveValue gen fuel name jsValue nativeType dst = .panicked t →
      handledShape t = false := by
  intro fuel
  induction fuel with
  | zero => intro _ _ _ _ _ h; exact RRes.noConfusion h
  | succ f ih =>
    intro name jsValue nativeType dst t h
    cases nativeType with
    | ident s =>
      simp only [ResolveValue] at h
      exact resolveIdent_panicked_shape (fun n j ty d u hu => ih hu) h
    | star pointee =>
      simp only [ResolveValue] at h
      exact resolvePointer_panicked_shape (fun n j ty d u hu => ih hu) h
    | arrayType tyLen elt =>
      simp only [ResolveValue] at h
      exact resolveArray_panicked_shape (fun n j ty d u hu => ih hu) h
    | structType fields =>
      simp only [ResolveValue] at h
      exact resolveStruct_panicked_shape (fun n j ty d u hu => ih hu) h
    | basicLit k v =>
      simp only [ResolveValue] at h
      injection h with h1
      subst h1
      rfl
    | selector x s =>
      simp only [ResolveValue] at h
      injection h with h1
      subst h1
      rfl
    | call fn args =>
      simp only [ResolveValue] at h
      injection h with h1
      subst h1
      rfl
    | index x i =>
      simp only [ResolveValue] at h
      injection h with h1
      subst h1
      rfl
    | binary x op y =>
      simp only [ResolveValue] at h
      injection h with h1
      subst h1
      rfl
    | compositeLit ty =>
      simp only [ResolveValue] at h
      injection h with h1
      subst h1
      rfl

/-! ### Claims -/

/-- C1 (code-bug evidence): resolving `*int` ("Optional(Named(int))") with no
destination emits the guard whose condition is `ptrGuardCond`, the logical OR
`jsType != js.TypeUndefined || jsType != js.TypeNull`; that condition
evaluates to `true` when the source's dynamic kind is `null`, when it is
`undefined`, and indeed for every possible kind, so the inner preparatory
statements execute even for null and undefined sources — contradicting the
claim that the guarded block runs exactly when the kind is neither
`undefined` nor `null` and that a null/undefined source leaves the
destination zero-valued. -/
theorem c1_pointer_guard_runs_on_null_and_undefined :
    resolvePointer (ResolveValue emptyGen 4) "x" (.ident "v") (.ident "int")
        none =
      .ret (some (.ident "x"))
        [.varDecl ["x"] (.star (.ident "int")),
         .ifStmt
           (.assign [Expr.ident "jsType"] .define
             [.call (.selector (.ident "v") "Type") []])
           ptrGuardCond
           [.assign [Expr.ident "x"] .assign
             [.call (.selector (.ident "v") "Int") []]]]
        none
    ∧ evalGuard .null ptrGuardCond = some (.b true)
    ∧ evalGuard .undefined ptrGuardCond = some (.b true)
    ∧ (List.all
        [JsType.undefined, .null, .boolean, .number, .str, .symbol, .object,
         .function]
        (fun k => evalGuard k ptrGuardCond == some (.b true))) = true :=
  ⟨rfl, rfl, rfl, rfl⟩

/-- C2 (code-bug evidence): resolving `*int32` with no supplied destination
emits exactly two statements — the declaration `var opt *int32` and the
guard — and nothing else: no statement allocates storage for the pointee
(there is no `new`/address-of anywhere in the output), and the guarded inner
assignment writes the converted scalar into the pointer variable `opt`
itself, not into a dereference of it, contradicting the claim that the
resolver allocates the pointee and resolves the inner shape one level
dereferenced. -/
theorem c2_pointer_no_alloc_and_undereferenced_dst :
    resolvePointer (ResolveValue emptyGen 4) "opt" (.ident "src")
        (.ident "int32") none =
      .ret (some (.ident "opt"))
        [.varDecl ["opt"] (.star (.ident "int32")),
         .ifStmt
           (.assign [Expr.ident "jsType"] .define
             [.call (.selector (.ident "src") "Type") []])
           ptrGuardCond
           [.assign [Expr.ident "opt"] .assign
             [.call (.ident "int32")
               [.call (.selector (.ident "src") "Int") []]]]]
        none :=
  rfl

/-- C9: for any input type shape outside the four handled variants (named
identifier, pointer, sequence, record), `ResolveValue` halts fatally with a
panic carrying that shape rather than returning any `(expr, stmts, err)`
triple; for a shape within the four variants that fatal branch is
unreachable — the call never results in the panic on the dispatched shape. -/
theorem c9_unrecognized_shape_panics :
    ∀ (gen : Generator) (fuel : Nat) (name : String)
      (jsValue nativeType : Expr) (dst : Option Expr),
      (handledShape nativeType = false →
        ResolveValue gen (fuel + 1) name jsValue nativeType dst =
          .panicked nativeType ∧
        ∀ (o : Option Expr) (st : List Stmt) (oe : Option Err),
          ResolveValue gen (fuel + 1) name jsValue nativeType dst ≠
            .ret o st oe) ∧
      (handledShape nativeType = true →
        ResolveValue gen (fuel + 1) name jsValue nativeType dst ≠
          .panicked nativeType) := by
  intro gen fuel name jsValue nativeType dst
  constructor
  · intro hUn
    have hEq : ResolveValue gen (fuel + 1) name jsValue nativeType dst =
        .panicked nativeType := by
      cases nativeType <;>
        first
          | rfl
          | exact absurd hUn (by simp [handledShape])
    refine ⟨hEq, fun o st oe hc => ?_⟩
    rw [hEq] at hc
    exact RRes.noConfusion hc
  · intro hH hc
    have hfalse := ResolveValue_panicked_shape gen (fuel + 1) hc
    rw [hH] at hfalse
    exact Bool.noConfusion hfalse

/-- Witness for C9: a qualified-name shape `js.Value` (an `ast.SelectorExpr`,
outside the four variants) panics, while the handled shape `bool` never
produces the panic on itself. -/
theorem c9_unrecognized_shape_panics_witness :
    ResolveValue emptyGen 1 "x" (.ident "v") (.selector (.ident "js") "Value")
        none =
      .panicked (.selector (.ident "js") "Value") ∧
    ResolveValue emptyGen 1 "x" (.ident "v") (.ident "bool") none ≠
      .panicked (.ident "bool") :=
  ⟨((c9_unrecognized_shape_panics emptyGen 0 "x" (.ident "v")
      (.selector (.ident "js") "Value") none).1 rfl).1,
   (c9_unrecognized_shape_panics emptyGen 0 "x" (.ident "v")
      (.ident "bool") none).2 rfl⟩

/-- C10: a record field entry with zero names (an embedded field) is silently
skipped: inside any record it contributes no statements and no error to the
field loop, and a record consisting of only such a field resolves — for any
field type whatsoever — to just the record allocation, its dynamic value
never read, converted or assigned. -/
theorem c10_embedded_field_skipped :
    ∀ (recur : String → Expr → Expr → Option Expr → RRes) (name : String)
      (jsValue dstV fieldType : Expr) (rest : List (List String × Expr)),
      resolveStructFieldList recur name jsValue dstV
          (([], fieldType) :: rest) =
        resolveStructFieldList recur name jsValue dstV rest ∧
      ∀ (gen : Generator) (fuel : Nat),
        resolveStruct (ResolveValue gen fuel) name jsValue
            [([], fieldType)] none =
          .ret (some (.ident name))
            [.assign [Expr.ident name] .define
              [.compositeLit (.structType [([], fieldType)])]] none := by
  intro recur name jsValue dstV fieldType rest
  constructor
  · have hn : resolveStructFieldNames recur name jsValue dstV fieldType [] =
        .ret none [] none := rfl
    rcases hres : resolveStructFieldList recur name jsValue dstV rest with
      ⟨o, st, oe⟩ | u | _
    · have ho := resolveStructFieldList_ret_expr_none hres
      subst ho
      cases oe
      · simp [resolveStructFieldList, hn, hres]
      · simp [resolveStructFieldList, hn, hres]
    · simp [resolveStructFieldList, hn, hres]
    · simp [resolveStructFieldList, hn, hres]
  · intro gen fuel
    rfl

/-- C3: a sequence resolution with a statically fixed length emits no
length-query statement and uses the fixed-length expression itself as the
loop bound (including a fixed length of 0, which still yields the loop); a
dynamic-length (slice) resolution emits exactly one length-query statement
binding the fresh local `nameLen` before the loop and uses that local as the
bound; in all four destination/length combinations exactly one counted loop
(counter defined to 0, condition `counter < length`, `counter++`) is the last
emitted statement. -/
theorem c3_sequence_length_dispatch :
    ∀ (gen : Generator) (fuel : Nat) (name : String)
      (jsValue elt d lenLit : Expr) (o : Option Expr) (st : List Stmt),
      (ResolveValue gen fuel (name ++ "Elt")
          (.call (.selector jsValue "Index") [.ident (name ++ "Idx")]) elt
          (some (.index d (.ident (name ++ "Idx")))) = .ret o st none →
        resolveArray (ResolveValue gen fuel) name jsValue none elt (some d) =
          .ret (some d)
            [.assign [Expr.ident (name ++ "Len")] .define
              [.call (.selector jsValue "Length") []],
             .forStmt
               (.assign [Expr.ident (name ++ "Idx")] .define
                 [.basicLit "INT" "0"])
               (.binary (.ident (name ++ "Idx")) .lss
                 (.ident (name ++ "Len")))
               (.incDec (.ident (name ++ "Idx")))
               st] none) ∧
      (ResolveValue gen fuel (name ++ "Elt")
          (.call (.selector jsValue "Index") [.ident (name ++ "Idx")]) elt
          (some (.index d (.ident (name ++ "Idx")))) = .ret o st none →
        resolveArray (ResolveValue gen fuel) name jsValue (some lenLit) elt
            (some d) =
          .ret (some d)
            [.forStmt
               (.assign [Expr.ident (name ++ "Idx")] .define
                 [.basicLit "INT" "0"])
               (.binary (.ident (name ++ "Idx")) .lss lenLit)
               (.incDec (.ident (name ++ "Idx")))
               st] none) ∧
      (ResolveValue gen fuel (name ++ "Elt")
          (.call (.selector jsValue "Index") [.ident (name ++ "Idx")]) elt
          (some (.index (.ident name) (.ident (name ++ "Idx")))) =
            .ret o st none →
        resolveArray (ResolveValue gen fuel) name jsValue none elt none =
          .ret (some (.ident name))
            [.assign [Expr.ident (name ++ "Len")] .define
              [.call (.selector jsValue "Length") []],
             .assign [Expr.ident name] .define
              [.call (.ident "make")
                [.arrayType none elt, .ident (name ++ "Len")]],
             .forStmt
               (.assign [Expr.ident (name ++ "Idx")] .define
                 [.basicLit "INT" "0"])
               (.binary (.ident (name ++ "Idx")) .lss
                 (.ident (name ++ "Len")))
               (.incDec (.ident (name ++ "Idx")))
               st] none) ∧
      (ResolveValue gen fuel (name ++ "Elt")
          (.call (.selector jsValue "Index") [.ident (name ++ "Idx")]) elt
          (some (.index (.ident name) (.ident (name ++ "Idx")))) =
            .ret o st none →
        resolveArray (ResolveValue gen fuel) name jsValue (some lenLit) elt
            none =
          .ret (some (.ident name))
            [.varDecl [name] (.arrayType (some lenLit) elt),
             .forStmt
               (.assign [Expr.ident (name ++ "Idx")] .define
                 [.basicLit "INT" "0"])
               (.binary (.ident (name ++ "Idx")) .lss lenLit)
               (.incDec (.ident (name ++ "Idx")))
               st] none) := by
  intro gen fuel name jsValue elt d lenLit o st
  refine ⟨fun h => ?_, fun h => ?_, fun h => ?_, fun h => ?_⟩ <;>
    simp [resolveArray, h]

/-- Witness for C3: a dynamic `[]bool` with a supplied destination, and a
fixed-length-0 `[0]bool` with no destination. -/
theorem c3_sequence_length_dispatch_witness :
    resolveArray (ResolveValue emptyGen 1) "s" (.ident "v") none
        (.ident "bool") (some (.ident "d")) =
      .ret (some (.ident "d"))
        [.assign [Expr.ident "sLen"] .define
          [.call (.selector (.ident "v") "Length") []],
         .forStmt
           (.assign [Expr.ident "sIdx"] .define [.basicLit "INT" "0"])
           (.binary (.ident "sIdx") .lss (.ident "sLen"))
           (.incDec (.ident "sIdx"))
           [.assign [Expr.index (.ident "d") (.ident "sIdx")] .assign
             [.call
               (.selector
                 (.call (.selector (.ident "v") "Index") [.ident "sIdx"])
                 "Bool")
               []]]] none ∧
    resolveArray (ResolveValue emptyGen 1) "s" (.ident "v")
        (some (.basicLit "INT" "0")) (.ident "bool") none =
      .ret (some (.ident "s"))
        [.varDecl ["s"]
          (.arrayType (some (.basicLit "INT" "0")) (.ident "bool")),
         .forStmt
           (.assign [Expr.ident "sIdx"] .define [.basicLit "INT" "0"])
           (.binary (.ident "sIdx") .lss (.basicLit "INT" "0"))
           (.incDec (.ident "sIdx"))
           [.assign [Expr.index (.ident "s") (.ident "sIdx")] .assign
             [.call
               (.selector
                 (.call (.selector (.ident "v") "Index") [.ident "sIdx"])
                 "Bool")
               []]]] none :=
  ⟨(c3_sequence_length_dispatch emptyGen 1 "s" (.ident "v") (.ident "bool")
      (.ident "d") (.basicLit "INT" "0") _ _).1 rfl,
   (c3_sequence_length_dispatch emptyGen 1 "s" (.ident "v") (.ident "bool")
      (.ident "d") (.basicLit "INT" "0") _ _).2.2.2 rfl⟩

/-- C4: a record resolution with no supplied destination emits the allocation
`name := structType{}` as its first statement and uses `name` as destination;
each field is resolved with the source handle `jsValue.Get(fieldName)`
(name-based lookup) and the destination handle `dstV.fieldName` (field
selection on the destination record), and the per-field preparatory
statements are concatenated in exactly declaration order. -/
theorem c4_record_alloc_and_field_order :
    ∀ (gen : Generator) (fuel : Nat) (name fieldName : String)
      (jsValue dstV fieldType : Expr)
      (fields rest2 : List (List String × Expr))
      (restNames fieldNames : List String)
      (o o1 o2 : Option Expr) (st st1 st2 : List Stmt),
      (resolveStructFieldList (ResolveValue gen fuel) name jsValue
          (.ident name) fields = .ret o st none →
        resolveStruct (ResolveValue gen fuel) name jsValue fields none =
          .ret (some (.ident name))
            (.assign [Expr.ident name] .define
              [.compositeLit (.structType fields)] :: st) none) ∧
      (ResolveValue gen fuel (name ++ fieldName)
          (.call (.selector jsValue "Get") [.ident fieldName]) fieldType
          (some (.selector dstV fieldName)) = .ret o1 st1 none →
       resolveStructFieldNames (ResolveValue gen fuel) name jsValue dstV
          fieldType restNames = .ret o2 st2 none →
        resolveStructFieldNames (ResolveValue gen fuel) name jsValue dstV
            fieldType (fieldName :: restNames) =
          .ret none (st1 ++ st2) none) ∧
      (resolveStructFieldNames (ResolveValue gen fuel) name jsValue dstV
          fieldType fieldNames = .ret o1 st1 none →
       resolveStructFieldList (ResolveValue gen fuel) name jsValue dstV
          rest2 = .ret o2 st2 none →
        resolveStructFieldList (ResolveValue gen fuel) name jsValue dstV
            ((fieldNames, fieldType) :: rest2) =
          .ret none (st1 ++ st2) none) := by
  intro gen fuel name fieldName jsValue dstV fieldType fields rest2 restNames
    fieldNames o o1 o2 st st1 st2
  refine ⟨fun h => ?_, fun h1 h2 => ?_, fun h1 h2 => ?_⟩
  · simp [resolveStruct, h]
  · simp [resolveStructFieldNames, h1, h2]
  · simp [resolveStructFieldList, h1, h2]

/-- C5: the argument-list driver starts at position 0 with the `nil`-filled
argument slice; each parameter name at running position `i` is resolved from
the source handle `args[i]` (a literal index into the incoming arguments)
with no destination, its expression is stored at slot `i`, and the
preparatory statements of consecutive parameters are concatenated as
contiguous blocks in positional order, never interleaved. -/
theorem c5_args_positional_order :
    ∀ (gen : Generator) (fuel i : Nat) (pname : String) (paramType : Expr)
      (restNames paramNames : List String)
      (params restParams : List (List String × Expr))
      (args args2 argsF : List (Option Expr)) (a1 : Option Expr)
      (st1 st2 : List Stmt),
      (resolveFuncArgs gen fuel params =
        resolveFuncArgsParams (ResolveValue gen fuel) 0
          (List.replicate (numFields params) none) params) ∧
      (ResolveValue gen fuel pname
          (.index (.ident "args") (.basicLit "INT" (toString i))) paramType
          none = .ret a1 st1 none →
       resolveFuncArgsNames (ResolveValue gen fuel) (i + 1) (args.set i a1)
          paramType restNames = .ret argsF st2 none →
        resolveFuncArgsNames (ResolveValue gen fuel) i args paramType
            (pname :: restNames) = .ret argsF (st1 ++ st2) none) ∧
      (resolveFuncArgsNames (ResolveValue gen fuel) i args paramType
          paramNames = .ret args2 st1 none →
       resolveFuncArgsParams (ResolveValue gen fuel) (i + paramNames.length)
          args2 restParams = .ret argsF st2 none →
        resolveFuncArgsParams (ResolveValue gen fuel) i args
            ((paramNames, paramType) :: restParams) =
          .ret argsF (st1 ++ st2) none) := by
  intro gen fuel i pname paramType restNames paramNames params restParams
    args args2 argsF a1 st1 st2
  refine ⟨rfl, fun h1 h2 => ?_, fun h1 h2 => ?_⟩
  · simp [resolveFuncArgsNames, h1, h2]
  · simp [resolveFuncArgsParams, h1, h2]

/-- Witness for C5 on the parameter list `[x: bool, y: string]`: `x` is read
from `args[0]`, `y` from `args[1]`, both with no destination. -/
theorem c5_args_positional_order_witness :
    resolveFuncArgsNames (ResolveValue emptyGen 1) 0 [none, none]
        (.ident "bool") ["x"] =
      .ret
        [some (.call
          (.selector (.index (.ident "args") (.basicLit "INT" "0")) "Bool")
          []), none] [] none ∧
    resolveFuncArgsParams (ResolveValue emptyGen 1) 0 [none, none]
        [(["x"], .ident "bool"), (["y"], .ident "string")] =
      .ret
        [some (.call
          (.selector (.index (.ident "args") (.basicLit "INT" "0")) "Bool")
          []),
         some (.call
          (.selector (.index (.ident "args") (.basicLit "INT" "1")) "String")
          [])] [] none := by
  constructor
  · exact (c5_args_positional_order emptyGen 1 0 "x" (.ident "bool") [] []
      [] [] [none, none] []
      [some (.call
        (.selector (.index (.ident "args") (.basicLit "INT" "0")) "Bool") []),
       none]
      (some (.call
        (.selector (.index (.ident "args") (.basicLit "INT" "0")) "Bool") []))
      [] []).2.1 rfl rfl
  · exact (c5_args_positional_order emptyGen 1 0 "x" (.ident "bool") [] ["x"]
      [] [(["y"], .ident "string")] [none, none]
      [some (.call
        (.selector (.index (.ident "args") (.basicLit "INT" "0")) "Bool") []),
       none]
      [some (.call
        (.selector (.index (.ident "args") (.basicLit "INT" "0")) "Bool") []),
       some (.call
        (.selector (.index (.ident "args") (.basicLit "INT" "1")) "String")
        [])]
      none [] []).2.2 rfl rfl

/-- Witness for C4: a record `struct { A bool }` with no destination allocates
first; a two-name field loop `[A, B]` and a two-field list `[A: bool,
B: string]` both concatenate their statements in declaration order. -/
theorem c4_record_alloc_and_field_order_witness :
    resolveStruct (ResolveValue emptyGen 1) "r" (.ident "v")
        [(["A"], .ident "bool")] none =
      .ret (some (.ident "r"))
        [.assign [Expr.ident "r"] .define
          [.compositeLit (.structType [(["A"], .ident "bool")])],
         .assign [Expr.selector (.ident "r") "A"] .assign
          [.call
            (.selector (.call (.selector (.ident "v") "Get") [.ident "A"])
              "Bool") []]] none ∧
    resolveStructFieldNames (ResolveValue emptyGen 1) "r" (.ident "v")
        (.ident "r") (.ident "bool") ["A", "B"] =
      .ret none
        [.assign [Expr.selector (.ident "r") "A"] .assign
          [.call
            (.selector (.call (.selector (.ident "v") "Get") [.ident "A"])
              "Bool") []],
         .assign [Expr.selector (.ident "r") "B"] .assign
          [.call
            (.selector (.call (.selector (.ident "v") "Get") [.ident "B"])
              "Bool") []]] none ∧
    resolveStructFieldList (ResolveValue emptyGen 1) "r" (.ident "v")
        (.ident "r") [(["A"], .ident "bool"), (["B"], .ident "string")] =
      .ret none
        [.assign [Expr.selector (.ident "r") "A"] .assign
          [.call
            (.selector (.call (.selector (.ident "v") "Get") [.ident "A"])
              "Bool") []],
         .assign [Expr.selector (.ident "r") "B"] .assign
          [.call
            (.selector (.call (.selector (.ident "v") "Get") [.ident "B"])
              "String") []]] none := by
  refine ⟨?_, ?_, ?_⟩
  · exact (c4_record_alloc_and_field_order emptyGen 1 "r" "A" (.ident "v")
      (.ident "r") (.ident "bool") [(["A"], .ident "bool")] [] [] []
      none none none
      [.assign [Expr.selector (.ident "r") "A"] .assign
        [.call
          (.selector (.call (.selector (.ident "v") "Get") [.ident "A"])
            "Bool") []]] [] []).1 rfl
  · exact (c4_record_alloc_and_field_order emptyGen 1 "r" "A" (.ident "v")
      (.ident "r") (.ident "bool") [] [] ["B"] []
      none (some (.selector (.ident "r") "A")) none []
      [.assign [Expr.selector (.ident "r") "A"] .assign
        [.call
          (.selector (.call (.selector (.ident "v") "Get") [.ident "A"])
            "Bool") []]]
      [.assign [Expr.selector (.ident "r") "B"] .assign
        [.call
          (.selector (.call (.selector (.ident "v") "Get") [.ident "B"])
            "Bool") []]]).2.1 rfl rfl
  · exact (c4_record_alloc_and_field_order emptyGen 1 "r" "A" (.ident "v")
      (.ident "r") (.ident "bool") [] [(["B"], .ident "string")] [] ["A"]
      none none none []
      [.assign [Expr.selector (.ident "r") "A"] .assign
        [.call
          (.selector (.call (.selector (.ident "v") "Get") [.ident "A"])
            "Bool") []]]
      [.assign [Expr.selector (.ident "r") "B"] .assign
        [.call
          (.selector (.call (.selector (.ident "v") "Get") [.ident "B"])
            "String") []]]).2.2 rfl rfl

/-- C6: resolving a Named scalar with no destination returns the computed
expression directly with zero preparatory statements: `bool` uses the `Bool`
accessor, `string` the `String` accessor, every integer-family name the `Int`
accessor with a narrowing cast to the exact named type unless the name is the
default `int`, and every floating-point name the `Float` accessor with a cast
unless it is `float64`; for any built-in scalar, supplying a destination
yields exactly one assignment of that same computed expression into the
destination, which is returned as the final reference. -/
theorem c6_scalar_accessors :
    ∀ (gen : Generator) (recur : String → Expr → Expr → Option Expr → RRes)
      (name : String) (jsValue d : Expr),
      (resolveIdent gen recur name jsValue "bool" none =
        .ret (some (.call (.selector jsValue "Bool") [])) [] none) ∧
      (resolveIdent gen recur name jsValue "string" none =
        .ret (some (.call (.selector jsValue "String") [])) [] none) ∧
      (∀ s, s ∈ intTypeNames →
        resolveIdent gen recur name jsValue s none =
          .ret
            (some (if s = "int"
              then .call (.selector jsValue "Int") []
              else .call (.ident s) [.call (.selector jsValue "Int") []]))
            [] none) ∧
      (∀ s, s ∈ floatTypeNames →
        resolveIdent gen recur name jsValue s none =
          .ret
            (some (if s = "float64"
              then .call (.selector jsValue "Float") []
              else .call (.ident s) [.call (.selector jsValue "Float") []]))
            [] none) ∧
      (∀ (s m c : String), identSpec s = some (m, c) →
        resolveIdent gen recur name jsValue s none =
          .ret (some (identExpr jsValue m c)) [] none ∧
        resolveIdent gen recur name jsValue s (some d) =
          .ret (some d) [.assign [d] .assign [identExpr jsValue m c]] none) := by
  intro gen recur name jsValue d
  refine ⟨rfl, rfl, fun s hs => ?_, fun s hs => ?_, fun s m c hIS => ?_⟩
  · fin_cases hs <;> rfl
  · fin_cases hs <;> rfl
  · constructor <;> simp [resolveIdent, hIS, identExpr]

/-- Witness for C6: `int32` gets the `Int` accessor under an `int32` cast with
no statements; `string` with a destination gets exactly one assignment and
the destination back. -/
theorem c6_scalar_accessors_witness :
    resolveIdent emptyGen (ResolveValue emptyGen 1) "x" (.ident "v") "int32"
        none =
      .ret
        (some (.call (.ident "int32")
          [.call (.selector (.ident "v") "Int") []])) [] none ∧
    resolveIdent emptyGen (ResolveValue emptyGen 1) "x" (.ident "v") "string"
        (some (.ident "d")) =
      .ret (some (.ident "d"))
        [.assign [Expr.ident "d"] .assign
          [.call (.selector (.ident "v") "String") []]] none := by
  constructor
  · have h := (c6_scalar_accessors emptyGen (ResolveValue emptyGen 1) "x"
      (.ident "v") (.ident "d")).2.2.1 "int32" (by simp [intTypeNames])
    simpa using h
  · have h := ((c6_scalar_accessors emptyGen (ResolveValue emptyGen 1) "x"
      (.ident "v") (.ident "d")).2.2.2.2 "string" "String" "" rfl).2
    simpa [identExpr] using h

/-- C7: when a child resolution fails, each composite resolver wraps the
child's error with the role the child occupied and the offending shape —
`pointerElt` for the pointer resolver, `arrayElt` for the sequence resolver
(in both length modes), `structField` for the record field loop, `argument`
(with the parameter name) for the argument-list driver — and returns no
expression and no statements alongside the error; the record resolver and the
parameter loop propagate such a wrapped failure without adding any partial
output. -/
theorem c7_error_wrapping :
    ∀ (recur : String → Expr → Expr → Option Expr → RRes)
      (name fieldName pname : String)
      (jsValue pointee elt fieldType paramType dstV : Expr)
      (restNames : List String)
      (rest2 restParams : List (List String × Expr)) (i : Nat)
      (args argsE : List (Option Expr)) (o : Option Expr) (st stE : List Stmt)
      (e : Err) (dst : Option Expr),
      (recur (name ++ "Elt") jsValue pointee
          (some (match dst with | none => Expr.ident name | some d0 => d0)) =
            .ret o st (some e) →
        resolvePointer recur name jsValue pointee dst =
          .ret none [] (some (.pointerElt pointee e))) ∧
      (∀ tyLen : Option Expr,
        recur (name ++ "Elt")
            (.call (.selector jsValue "Index") [.ident (name ++ "Idx")]) elt
            (some (.index
              (match dst with | none => Expr.ident name | some d0 => d0)
              (.ident (name ++ "Idx")))) = .ret o st (some e) →
        resolveArray recur name jsValue tyLen elt dst =
          .ret none [] (some (.arrayElt elt e))) ∧
      (recur (name ++ fieldName)
          (.call (.selector jsValue "Get") [.ident fieldName]) fieldType
          (some (.selector dstV fieldName)) = .ret o st (some e) →
        resolveStructFieldNames recur name jsValue dstV fieldType
            (fieldName :: restNames) =
          .ret none [] (some (.structField fieldType e))) ∧
      (resolveStructFieldList recur name jsValue
          (match dst with | none => Expr.ident name | some d0 => d0) rest2 =
            .ret o st (some e) →
        resolveStruct recur name jsValue rest2 dst =
          .ret none [] (some e)) ∧
      (recur pname (.index (.ident "args") (.basicLit "INT" (toString i)))
          paramType none = .ret o st (some e) →
        resolveFuncArgsNames recur i args paramType (pname :: restNames) =
          .ret [] [] (some (.argument pname paramType e))) ∧
      (resolveFuncArgsNames recur i args paramType restNames =
          .ret argsE stE (some e) →
        resolveFuncArgsParams recur i args
            ((restNames, paramType) :: restParams) =
          .ret argsE stE (some e)) := by
  intro recur name fieldName pname jsValue pointee elt fieldType paramType
    dstV restNames rest2 restParams i args argsE o st stE e dst
  refine ⟨fun h => ?_, fun tyLen h => ?_, fun h => ?_, fun h => ?_,
    fun h => ?_, fun h => ?_⟩
  · cases dst <;> simp at h <;> simp [resolvePointer, h]
  · cases dst <;> simp at h <;> cases tyLen <;> simp [resolveArray, h]
  · simp [resolveStructFieldNames, h]
  · cases dst <;> simp at h <;> simp [resolveStruct, h]
  · simp [resolveFuncArgsNames, h]
  · simp [resolveFuncArgsParams, h]

/-- Witness for C7: a child failing on the unknown identifier `Mystery` is
wrapped by each composite resolver with its role and shape, with empty
output. -/
theorem c7_error_wrapping_witness :
    resolvePointer (ResolveValue emptyGen 1) "x" (.ident "v")
        (.ident "Mystery") none =
      .ret none []
        (some (.pointerElt (.ident "Mystery")
          (.unresolvedIdentifier (.notFound "Mystery")))) ∧
    resolveArray (ResolveValue emptyGen 1) "x" (.ident "v") none
        (.ident "Mystery") none =
      .ret none []
        (some (.arrayElt (.ident "Mystery")
          (.unresolvedIdentifier (.notFound "Mystery")))) ∧
    resolveStructFieldNames (ResolveValue emptyGen 1) "x" (.ident "v")
        (.ident "r") (.ident "Mystery") ["A"] =
      .ret none []
        (some (.structField (.ident "Mystery")
          (.unresolvedIdentifier (.notFound "Mystery")))) ∧
    resolveStruct (ResolveValue emptyGen 1) "x" (.ident "v")
        [(["A"], .ident "Mystery")] none =
      .ret none []
        (some (.structField (.ident "Mystery")
          (.unresolvedIdentifier (.notFound "Mystery")))) ∧
    resolveFuncArgsNames (ResolveValue emptyGen 1) 0 [none]
        (.ident "Mystery") ["p"] =
      .ret [] []
        (some (.argument "p" (.ident "Mystery")
          (.unresolvedIdentifier (.notFound "Mystery")))) ∧
    resolveFuncArgsParams (ResolveValue emptyGen 1) 0 [none]
        [(["p"], .ident "Mystery")] =
      .ret [] []
        (some (.argument "p" (.ident "Mystery")
          (.unresolvedIdentifier (.notFound "Mystery")))) := by
  refine ⟨?_, ?_, ?_, ?_, ?_, ?_⟩
  · exact (c7_error_wrapping (ResolveValue emptyGen 1) "x" "A" "p"
      (.ident "v") (.ident "Mystery") (.ident "Mystery") (.ident "Mystery")
      (.ident "Mystery") (.ident "r") ["A"] [] [] 0 [none] [] none [] []
      (.unresolvedIdentifier (.notFound "Mystery")) none).1 rfl
  · exact (c7_error_wrapping (ResolveValue emptyGen 1) "x" "A" "p"
      (.ident "v") (.ident "Mystery") (.ident "Mystery") (.ident "Mystery")
      (.ident "Mystery") (.ident "r") ["A"] [] [] 0 [none] [] none [] []
      (.unresolvedIdentifier (.notFound "Mystery")) none).2.1 none rfl
  · exact (c7_error_wrapping (ResolveValue emptyGen 1) "x" "A" "p"
      (.ident "v") (.ident "Mystery") (.ident "Mystery") (.ident "Mystery")
      (.ident "Mystery") (.ident "r") [] [] [] 0 [none] [] none [] []
      (.unresolvedIdentifier (.notFound "Mystery")) none).2.2.1 rfl
  · exact (c7_error_wrapping (ResolveValue emptyGen 1) "x" "A" "p"
      (.ident "v") (.ident "Mystery") (.ident "Mystery") (.ident "Mystery")
      (.ident "Mystery") (.ident "r") []
      [(["A"], .ident "Mystery")] [] 0 [none] [] none [] []
      (.structField (.ident "Mystery")
        (.unresolvedIdentifier (.notFound "Mystery"))) none).2.2.2.1 rfl
  · exact (c7_error_wrapping (ResolveValue emptyGen 1) "x" "A" "p"
      (.ident "v") (.ident "Mystery") (.ident "Mystery") (.ident "Mystery")
      (.ident "Mystery") (.ident "r") [] [] [] 0 [none] [] none [] []
      (.unresolvedIdentifier (.notFound "Mystery")) none).2.2.2.2.1 rfl
  · exact (c7_error_wrapping (ResolveValue emptyGen 1) "x" "A" "p"
      (.ident "v") (.ident "Mystery") (.ident "Mystery") (.ident "Mystery")
      (.ident "Mystery") (.ident "r") ["p"] [] [] 0 [none] [] none [] []
      (.argument "p" (.ident "Mystery")
        (.unresolvedIdentifier (.notFound "Mystery"))) none).2.2.2.2.2 rfl

/-- For a built-in scalar name, `resolveIdent` ignores the generator, the
recursion and the base name: its result depends only on the source and the
destination. -/
theorem resolveIdent_builtin_congr (gen gen2 : Generator)
    (recur recur2 : String → Expr → Expr → Option Expr → RRes)
    (name name2 : String) (jsValue : Expr) (s m c : String)
    (dst : Option Expr) (hIS : identSpec s = some (m, c)) :
    resolveIdent gen recur name jsValue s dst =
      resolveIdent gen2 recur2 name2 jsValue s dst := by
  unfold resolveIdent
  rw [hIS]

/-- For a built-in scalar name, `ResolveValue` does not depend on the
remaining fuel or the base name. -/
theorem ResolveValue_builtin_fuel (gen : Generator) (f1 f2 : Nat)
    (name name2 : String) (jsValue : Expr) (s m c : String)
    (dst : Option Expr) (hIS : identSpec s = some (m, c)) :
    ResolveValue gen (f1 + 1) name jsValue (.ident s) dst =
      ResolveValue gen (f2 + 1) name2 jsValue (.ident s) dst := by
  simp only [ResolveValue]
  exact resolveIdent_builtin_congr gen gen _ _ name name2 jsValue s m c dst
    hIS

/-- Following an alias chain that ends at `int32` gives exactly the result of
resolving `int32` directly, for any fuel exceeding the chain length. -/
theorem ResolveValue_alias_chain (gen : Generator) :
    ∀ {s : String} {n : Nat}, AliasesToI32 gen s n →
      ∀ (fuel : Nat), n < fuel →
      ∀ (name name2 : String) (jsValue : Expr) (dst : Option Expr),
        ResolveValue gen fuel name jsValue (.ident s) dst =
          ResolveValue gen 1 name2 jsValue (.ident "int32") dst := by
  intro s n h
  induction h with
  | base s0 h1 h2 =>
    intro fuel hlt name name2 jsValue dst
    obtain ⟨f, rfl⟩ : ∃ f, fuel = f + 1 := ⟨fuel - 1, by omega⟩
    have hstep : ResolveValue gen (f + 1) name jsValue (.ident s0) dst =
        ResolveValue gen f s0 jsValue (.ident "int32") dst := by
      simp [ResolveValue, resolveIdent, h1, Generator.getTypeAlias, h2]
    rw [hstep]
    obtain ⟨f2, rfl⟩ : ∃ f2, f = f2 + 1 := ⟨f - 1, by omega⟩
    exact ResolveValue_builtin_fuel gen f2 0 s0 name2 jsValue "int32" "Int"
      "int32" dst rfl
  | step s0 t n0 h1 h2 h3 ih =>
    intro fuel hlt name name2 jsValue dst
    obtain ⟨f, rfl⟩ : ∃ f, fuel = f + 1 := ⟨fuel - 1, by omega⟩
    have hstep : ResolveValue gen (f + 1) name jsValue (.ident s0) dst =
        ResolveValue gen f s0 jsValue (.ident t) dst := by
      simp [ResolveValue, resolveIdent, h1, Generator.getTypeAlias, h2]
    rw [hstep]
    exact ih f (by omega) s0 name2 jsValue dst

/-- C8: resolving a named type that reaches `int32` through any chain of
alias-table entries produces exactly the same emitted expression and
statements as resolving `int32` directly with the same source and
destination; a non-scalar name absent from the table fails with the
`UnresolvedIdentifier` wrapping of the lookup's NotFound error, which reports
the offending name. -/
theorem c8_alias_transitivity :
    (∀ (gen : Generator) (s : String) (n : Nat), AliasesToI32 gen s n →
      ∀ (fuel : Nat), n < fuel →
      ∀ (name name2 : String) (jsValue : Expr) (dst : Option Expr),
        ResolveValue gen fuel name jsValue (.ident s) dst =
          ResolveValue gen 1 name2 jsValue (.ident "int32") dst) ∧
    (∀ (gen : Generator) (s : String), identSpec s = none →
      gen.typeAliases s = none →
      ∀ (fuel : Nat) (name : String) (jsValue : Expr) (dst : Option Expr),
        ResolveValue gen (fuel + 1) name jsValue (.ident s) dst =
          .ret none [] (some (.unresolvedIdentifier (.notFound s)))) := by
  constructor
  · intro gen s n h fuel hlt name name2 jsValue dst
    exact ResolveValue_alias_chain gen h fuel hlt name name2 jsValue dst
  · intro gen s hIS hTbl fuel name jsValue dst
    simp [ResolveValue, resolveIdent, hIS, Generator.getTypeAlias, hTbl]

/-- Witness for C8: the chain `MyInt ↦ MyInt2 ↦ int32` of `aliasGen` resolves
exactly as `int32`, and the absent name `Mystery` fails with the wrapped
NotFound error naming it. -/
theorem c8_alias_transitivity_witness :
    ResolveValue aliasGen 3 "p" (.ident "w") (.ident "MyInt") none =
      ResolveValue aliasGen 1 "q" (.ident "w") (.ident "int32") none ∧
    ResolveValue emptyGen 1 "p" (.ident "w") (.ident "Mystery") none =
      .ret none [] (some (.unresolvedIdentifier (.notFound "Mystery"))) := by
  constructor
  · exact c8_alias_transitivity.1 aliasGen "MyInt" 2
      (.step "MyInt" "MyInt2" 1 rfl rfl (.base "MyInt2" rfl rfl))
      3 (by omega) "p" "q" (.ident "w") none
  · exact c8_alias_transitivity.2 emptyGen "Mystery" rfl rfl 0 "p"
      (.ident "w") none

end WasmGen
